import Mathlib

/-!
Verification of the `SceneManager` scene-preparation/rendering module
(`SceneManager.cpp`): a texture registry (tag → GPU handle / slot lookups),
a material catalog, model-matrix construction, and shader-uniform setter
paths, shallowly embedded as pure Lean functions.

Modelling conventions:
* C++ `float` values are modelled as real numbers (`ℝ`); the claims checked
  here concern control flow, registry structure and exact composition order,
  none of which depend on rounding.
* The OpenGL context is a record `GLState`: the active texture unit, the
  per-unit 2D-texture binding, the next handle `glGenTextures` will hand out,
  and the list of handles allocated so far (never removed unless a delete
  call removes them; the module under verification issues no delete).
* Image decoding (`stbi_load`) is an external collaborator; its result is an
  input of type `Option Image` (`none` = decode failure).
* Shader-uniform writes are modelled as the ordered list of
  `(uniform name, value)` pairs a call emits; a null `m_pShaderManager` is
  the flag `shaderPresent = false`.  A dereference of the null pointer is
  modelled as the result `none` of an `Option`-returning function.
-/

namespace SceneMgr

/-- glm::vec3 with real components. -/
structure Vec3 where
  x : ℝ
  y : ℝ
  z : ℝ

/-- One entry of `m_textureIDs`: the GPU handle and the tag string.
The slot index of an entry is its position in the registry list. -/
structure TextureEntry where
  ID : Int
  tag : String

/-- `OBJECT_MATERIAL`: diffuse/specular color, shininess, and tag. -/
structure ObjectMaterial where
  diffuseColor : Vec3
  specularColor : Vec3
  shininess : ℝ
  tag : String

/-- The result of a successful image decode: width, height and channel count
(as `stbi_load` reports them). -/
structure Image where
  width : Int
  height : Int
  colorChannels : Int

/-- The modelled OpenGL context state. -/
structure GLState where
  activeUnit : Int
  bound2D : Int → Int
  nextTextureID : Int
  allocated : List Int

/-- `GL_TEXTURE0` (0x84C0). -/
def GL_TEXTURE0 : Int := 33984

/-- `glGenTextures(1, &id)`: returns a fresh handle and records it as
allocated. -/
def glGenTexture (gl : GLState) : Int × GLState :=
  (gl.nextTextureID,
   { gl with nextTextureID := gl.nextTextureID + 1,
             allocated := gl.allocated ++ [gl.nextTextureID] })

/-- `glBindTexture(GL_TEXTURE_2D, id)`: binds `id` on the active unit. -/
def glBindTexture2D (gl : GLState) (id : Int) : GLState :=
  { gl with bound2D := fun u => if u = gl.activeUnit then id else gl.bound2D u }

/-- `glActiveTexture(unit)`. -/
def glActiveTexture (gl : GLState) (unit : Int) : GLState :=
  { gl with activeUnit := unit }

/-- The shared tail of `CreateGLTexture` after a supported channel count:
`glGenerateMipmap` and `stbi_image_free` change no modelled state, then
`glBindTexture(GL_TEXTURE_2D, 0)` unbinds, and the entry is registered at
index `m_loadedTextures` (the end of the list), incrementing the counter. -/
def finishCreateTexture (gl : GLState) (regs : List TextureEntry)
    (textureID : Int) (tag : String) : Bool × GLState × List TextureEntry :=
  (true, glBindTexture2D gl 0, regs ++ [⟨textureID, tag⟩])

/-- `SceneManager::CreateGLTexture(filename, tag)`.  The decode result of
`stbi_load(filename, ...)` is the `image` argument (`none` = load failure).
On a successful load it generates and binds a handle, sets wrap/filter
parameters (no modelled state), uploads the pixels when the channel count is
3 or 4 — otherwise it returns `false` right there, with the fresh handle
still bound — and on the supported path unbinds and registers the entry. -/
def createGLTexture (gl : GLState) (regs : List TextureEntry)
    (image : Option Image) (tag : String) : Bool × GLState × List TextureEntry :=
  match image with
  | some img =>
    let p := glGenTexture gl
    let textureID := p.1
    let gl := glBindTexture2D p.2 textureID
    if img.colorChannels = 3 then
      finishCreateTexture gl regs textureID tag
    else if img.colorChannels = 4 then
      finishCreateTexture gl regs textureID tag
    else
      (false, gl, regs)
  | none => (false, gl, regs)

/-- `SceneManager::CreateMirroredTexture(filename, tag)`: identical to
`CreateGLTexture` except for the wrap mode (`GL_MIRRORED_REPEAT`), which is a
texture-parameter call with no modelled state; the body is duplicated as in
the source. -/
def createMirroredTexture (gl : GLState) (regs : List TextureEntry)
    (image : Option Image) (tag : String) : Bool × GLState × List TextureEntry :=
  match image with
  | some img =>
    let p := glGenTexture gl
    let textureID := p.1
    let gl := glBindTexture2D p.2 textureID
    if img.colorChannels = 3 then
      finishCreateTexture gl regs textureID tag
    else if img.colorChannels = 4 then
      finishCreateTexture gl regs textureID tag
    else
      (false, gl, regs)
  | none => (false, gl, regs)

/-- The loop of `SceneManager::BindGLTextures`: for `i` in registration
order, `glActiveTexture(GL_TEXTURE0 + i); glBindTexture(GL_TEXTURE_2D, id)`. -/
def bindGLTexturesLoop (gl : GLState) : List TextureEntry → Int → GLState
  | [], _ => gl
  | e :: rest, i =>
    bindGLTexturesLoop (glBindTexture2D (glActiveTexture gl (GL_TEXTURE0 + i)) e.ID) rest (i + 1)

/-- `SceneManager::BindGLTextures()`. -/
def bindGLTextures (gl : GLState) (regs : List TextureEntry) : GLState :=
  bindGLTexturesLoop gl regs 0

/-- The loop of `SceneManager::DestroyGLTextures`: for each registered entry
in order, `glGenTextures(1, &m_textureIDs[i].ID)` — the handle is regenerated
in place; no delete call is issued. -/
def destroyGLTextures (gl : GLState) :
    List TextureEntry → GLState × List TextureEntry
  | [] => (gl, [])
  | e :: rest =>
    let p := glGenTexture gl
    let r := destroyGLTextures p.2 rest
    (r.1, { e with ID := p.1 } :: r.2)

/-- The `while` loop of `SceneManager::FindTextureID`: first-match linear
scan by tag, returning the matching entry's handle; `textureID` stays `-1`
when no entry matches. -/
def findTextureIDLoop : List TextureEntry → String → Int
  | [], _ => -1
  | e :: rest, tag => if e.tag = tag then e.ID else findTextureIDLoop rest tag

/-- `SceneManager::FindTextureID(tag)`. -/
def findTextureID (regs : List TextureEntry) (tag : String) : Int :=
  findTextureIDLoop regs tag

/-- The `while` loop of `SceneManager::FindTextureSlot`: first-match linear
scan by tag, returning the matching index; `textureSlot` stays `-1` when no
entry matches.  `idx` is the running `index` counter. -/
def findTextureSlotLoop : List TextureEntry → String → Int → Int
  | [], _, _ => -1
  | e :: rest, tag, idx =>
    if e.tag = tag then idx else findTextureSlotLoop rest tag (idx + 1)

/-- `SceneManager::FindTextureSlot(tag)`. -/
def findTextureSlot (regs : List TextureEntry) (tag : String) : Int :=
  findTextureSlotLoop regs tag 0

/-- The `while` loop of `SceneManager::FindMaterial`: first-match linear
scan; on a match it copies `diffuseColor`, `specularColor` and `shininess`
(not the tag) into the output parameter and stops; on a miss the output is
left unchanged. -/
def findMaterialLoop : List ObjectMaterial → String → ObjectMaterial → ObjectMaterial
  | [], _, material => material
  | e :: rest, tag, material =>
    if e.tag = tag then
      { material with diffuseColor := e.diffuseColor,
                      specularColor := e.specularColor,
                      shininess := e.shininess }
    else
      findMaterialLoop rest tag material

/-- `SceneManager::FindMaterial(tag, material)`: returns `false` on an empty
catalog; otherwise runs the scan loop and returns `true` unconditionally,
the (possibly unchanged) output parameter alongside. -/
def findMaterial (ms : List ObjectMaterial) (tag : String)
    (material : ObjectMaterial) : Bool × ObjectMaterial :=
  if ms.length = 0 then (false, material)
  else (true, findMaterialLoop ms tag material)

/-- `glm::radians(degrees)`. -/
noncomputable def radians (d : ℝ) : ℝ := d * (Real.pi / 180)

/-- `glm::scale(v)` as a 4×4 matrix (acting on column vectors). -/
noncomputable def scaleMat (v : Vec3) : Matrix (Fin 4) (Fin 4) ℝ :=
  Matrix.of ![![v.x, 0, 0, 0], ![0, v.y, 0, 0], ![0, 0, v.z, 0], ![0, 0, 0, 1]]

/-- `glm::translate(v)` as a 4×4 matrix (acting on column vectors). -/
noncomputable def translateMat (v : Vec3) : Matrix (Fin 4) (Fin 4) ℝ :=
  Matrix.of ![![1, 0, 0, v.x], ![0, 1, 0, v.y], ![0, 0, 1, v.z], ![0, 0, 0, 1]]

/-- `glm::rotate(angle, axis)` as a 4×4 matrix: glm normalizes the axis and
builds the Rodrigues rotation `c·I + (1-c)·a·aᵀ + s·[a]×`. -/
noncomputable def rotateMat (angle : ℝ) (v : Vec3) : Matrix (Fin 4) (Fin 4) ℝ :=
  let c := Real.cos angle
  let s := Real.sin angle
  let len := Real.sqrt (v.x ^ 2 + v.y ^ 2 + v.z ^ 2)
  let ax := v.x / len
  let ay := v.y / len
  let az := v.z / len
  Matrix.of
    ![![c + (1 - c) * ax * ax, (1 - c) * ax * ay - s * az, (1 - c) * ax * az + s * ay, 0],
      ![(1 - c) * ax * ay + s * az, c + (1 - c) * ay * ay, (1 - c) * ay * az - s * ax, 0],
      ![(1 - c) * ax * az - s * ay, (1 - c) * ay * az + s * ax, c + (1 - c) * az * az, 0],
      ![0, 0, 0, 1]]

/-- The model matrix `SceneManager::SetTransformations` computes:
`modelView = translation * rotationZ * rotationY * rotationX * scale`, with
each rotation built by `glm::rotate` about the respective coordinate axis
from the angle converted by `glm::radians`. -/
noncomputable def setTransformationsMatrix (scaleXYZ : Vec3)
    (XrotationDegrees YrotationDegrees ZrotationDegrees : ℝ)
    (positionXYZ : Vec3) : Matrix (Fin 4) (Fin 4) ℝ :=
  let scale := scaleMat scaleXYZ
  let rotationX := rotateMat (radians XrotationDegrees) ⟨1, 0, 0⟩
  let rotationY := rotateMat (radians YrotationDegrees) ⟨0, 1, 0⟩
  let rotationZ := rotateMat (radians ZrotationDegrees) ⟨0, 0, 1⟩
  let translation := translateMat positionXYZ
  translation * rotationZ * rotationY * rotationX * scale

/-- The standard rotation matrix about the x axis (spec-side reference). -/
noncomputable def rotXStd (t : ℝ) : Matrix (Fin 4) (Fin 4) ℝ :=
  Matrix.of ![![1, 0, 0, 0],
              ![0, Real.cos t, -Real.sin t, 0],
              ![0, Real.sin t, Real.cos t, 0],
              ![0, 0, 0, 1]]

/-- The standard rotation matrix about the y axis (spec-side reference). -/
noncomputable def rotYStd (t : ℝ) : Matrix (Fin 4) (Fin 4) ℝ :=
  Matrix.of ![![Real.cos t, 0, Real.sin t, 0],
              ![0, 1, 0, 0],
              ![-Real.sin t, 0, Real.cos t, 0],
              ![0, 0, 0, 1]]

/-- The standard rotation matrix about the z axis (spec-side reference). -/
noncomputable def rotZStd (t : ℝ) : Matrix (Fin 4) (Fin 4) ℝ :=
  Matrix.of ![![Real.cos t, -Real.sin t, 0, 0],
              ![Real.sin t, Real.cos t, 0, 0],
              ![0, 0, 1, 0],
              ![0, 0, 0, 1]]

/-- A shader-uniform value, one constructor per `ShaderManager` setter the
module calls. -/
inductive UniformVal where
  | mat4 (m : Matrix (Fin 4) (Fin 4) ℝ)
  | vec2 (u v : ℝ)
  | vec3 (v : Vec3)
  | vec4 (r g b a : ℝ)
  | int (i : Int)
  | bool (b : Bool)
  | float (x : ℝ)
  | sampler (i : Int)

/-- `SceneManager::SetTransformations`: computes the model matrix and, only
when `m_pShaderManager` is non-null, writes it to the `"model"` uniform
(`setIntValue`-style C++ `true`/`false` become `1`/`0`). -/
noncomputable def setTransformations (shaderPresent : Bool) (scaleXYZ : Vec3)
    (XrotationDegrees YrotationDegrees ZrotationDegrees : ℝ)
    (positionXYZ : Vec3) : List (String × UniformVal) :=
  let modelView := setTransformationsMatrix scaleXYZ
    XrotationDegrees YrotationDegrees ZrotationDegrees positionXYZ
  if shaderPresent then [("model", .mat4 modelView)] else []

/-- `SceneManager::SetShaderColor`: when `m_pShaderManager` is non-null,
disables texturing and writes the color; otherwise writes nothing. -/
def setShaderColor (shaderPresent : Bool) (r g b a : ℝ) :
    List (String × UniformVal) :=
  if shaderPresent then
    [("bUseTexture", .int 0), ("objectColor", .vec4 r g b a)]
  else []

/-- `SceneManager::SetShaderTexture(textureTag)`: when `m_pShaderManager` is
non-null, enables texturing and writes the slot found by
`FindTextureSlot(textureTag)` to the `"objectTexture"` sampler. -/
def setShaderTexture (shaderPresent : Bool) (regs : List TextureEntry)
    (textureTag : String) : List (String × UniformVal) :=
  if shaderPresent then
    [("bUseTexture", .int 1),
     ("objectTexture", .sampler (findTextureSlot regs textureTag))]
  else []

/-- `SceneManager::SetTextureUVScale(u, v)`. -/
def setTextureUVScale (shaderPresent : Bool) (u v : ℝ) :
    List (String × UniformVal) :=
  if shaderPresent then [("UVscale", .vec2 u v)] else []

/-- `SceneManager::SetTwoTextures(tag1, tag2, mixFactor)`: when
`m_pShaderManager` is non-null, writes the mix factor and the two enable
flags, looks up both tags' slots and handles, binds each handle on the unit
`GL_TEXTURE0 + slot`, and writes both sampler uniforms. -/
def setTwoTextures (shaderPresent : Bool) (regs : List TextureEntry)
    (tag1 tag2 : String) (mixFactor : ℝ) (gl : GLState) :
    List (String × UniformVal) × GLState :=
  if shaderPresent then
    let textureID1 := findTextureSlot regs tag1
    let textureID2 := findTextureSlot regs tag2
    let texture1 := findTextureID regs tag1
    let texture2 := findTextureID regs tag2
    let gl := glBindTexture2D (glActiveTexture gl (GL_TEXTURE0 + textureID1)) texture1
    let gl := glBindTexture2D (glActiveTexture gl (GL_TEXTURE0 + textureID2)) texture2
    ([("bMixFactor", .float mixFactor),
      ("bUseTexture", .bool true),
      ("bBlendTexture", .int 1),
      ("objectTexture", .sampler textureID1),
      ("texture2", .sampler textureID2)], gl)
  else ([], gl)

/-- `SceneManager::SetShaderMaterial(materialTag)`: when the catalog is
non-empty it calls `FindMaterial` on a stack-local `OBJECT_MATERIAL`
(modelled by the `uninit` argument, since C++ leaves it uninitialized) and,
when that reports success, writes the three material uniforms through
`m_pShaderManager` with NO null check — a null pointer is dereferenced,
modelled as the result `none`. -/
def setShaderMaterial (shaderPresent : Bool) (ms : List ObjectMaterial)
    (materialTag : String) (uninit : ObjectMaterial) :
    Option (List (String × UniformVal)) :=
  if ms.length > 0 then
    let r := findMaterial ms materialTag uninit
    if r.1 = true then
      if shaderPresent then
        some [("material.diffuseColor", .vec3 r.2.diffuseColor),
              ("material.specularColor", .vec3 r.2.specularColor),
              ("material.shininess", .float r.2.shininess)]
      else none
    else some []
  else some []

/-- `SceneManager::DefineObjectMaterials()`: the fixed catalog of seven
materials, in the order they are pushed. -/
def defineObjectMaterials : List ObjectMaterial :=
  [⟨⟨0.1, 0.1, 0.1⟩, ⟨0.9, 0.9, 0.9⟩, 100, "shinyPlastic"⟩,
   ⟨⟨0.5, 0.5, 0.5⟩, ⟨0.2, 0.2, 0.2⟩, 5, "flatPlastic"⟩,
   ⟨⟨1, 1, 1⟩, ⟨0.95, 0.95, 0.95⟩, 120, "glass"⟩,
   ⟨⟨0.9, 0.7, 0.4⟩, ⟨0.1, 0.1, 0.1⟩, 2, "bread"⟩,
   ⟨⟨0.2, 0.3, 0.4⟩, ⟨0.7, 0.7, 0.7⟩, 50, "tableCloth"⟩,
   ⟨⟨0.8, 0.7, 0.6⟩, ⟨0.1, 0.1, 0.1⟩, 3, "wall"⟩,
   ⟨⟨0.9, 0.5, 0.1⟩, ⟨0.3, 0.3, 0.3⟩, 10, "orange"⟩]

/-! ### Helper lemmas on the lookup loops -/

lemma findTextureSlotLoop_of_no_match {l : List TextureEntry} {tag : String}
    (h : ∀ x ∈ l, x.tag ≠ tag) (idx : Int) :
    findTextureSlotLoop l tag idx = -1 := by
  induction l generalizing idx with
  | nil => rfl
  | cons x rest ih =>
    have hx : x.tag ≠ tag := h x (by simp)
    simp only [findTextureSlotLoop, if_neg hx]
    exact ih (fun y hy => h y (by simp [hy])) (idx + 1)

lemma findTextureIDLoop_of_no_match {l : List TextureEntry} {tag : String}
    (h : ∀ x ∈ l, x.tag ≠ tag) :
    findTextureIDLoop l tag = -1 := by
  induction l with
  | nil => rfl
  | cons x rest ih =>
    have hx : x.tag ≠ tag := h x (by simp)
    simp only [findTextureIDLoop, if_neg hx]
    exact ih (fun y hy => h y (by simp [hy]))

lemma findTextureSlotLoop_first_match {pre : List TextureEntry}
    {e : TextureEntry} {post : List TextureEntry} {tag : String}
    (hpre : ∀ x ∈ pre, x.tag ≠ tag) (he : e.tag = tag) (idx : Int) :
    findTextureSlotLoop (pre ++ e :: post) tag idx = idx + pre.length := by
  induction pre generalizing idx with
  | nil => simp [findTextureSlotLoop, he]
  | cons x rest ih =>
    have hx : x.tag ≠ tag := hpre x (by simp)
    have hstep : findTextureSlotLoop ((x :: rest) ++ e :: post) tag idx
        = findTextureSlotLoop (rest ++ e :: post) tag (idx + 1) := by
      simp [findTextureSlotLoop, hx]
    rw [hstep, ih (fun y hy => hpre y (by simp [hy])) (idx + 1)]
    simp only [List.length_cons]
    push_cast
    ring

lemma findTextureIDLoop_first_match {pre : List TextureEntry}
    {e : TextureEntry} {post : List TextureEntry} {tag : String}
    (hpre : ∀ x ∈ pre, x.tag ≠ tag) (he : e.tag = tag) :
    findTextureIDLoop (pre ++ e :: post) tag = e.ID := by
  induction pre with
  | nil => simp [findTextureIDLoop, he]
  | cons x rest ih =>
    have hx : x.tag ≠ tag := hpre x (by simp)
    simp only [List.cons_append, findTextureIDLoop, if_neg hx]
    exact ih (fun y hy => hpre y (by simp [hy]))

lemma findMaterialLoop_of_no_match {ms : List ObjectMaterial} {tag : String}
    (h : ∀ x ∈ ms, x.tag ≠ tag) (m : ObjectMaterial) :
    findMaterialLoop ms tag m = m := by
  induction ms with
  | nil => rfl
  | cons x rest ih =>
    have hx : x.tag ≠ tag := h x (by simp)
    simp only [findMaterialLoop, if_neg hx]
    exact ih fun y hy => h y (by simp [hy])

lemma findMaterialLoop_first_match {pre : List ObjectMaterial}
    {e : ObjectMaterial} {post : List ObjectMaterial} {tag : String}
    (hpre : ∀ x ∈ pre, x.tag ≠ tag) (he : e.tag = tag) (m : ObjectMaterial) :
    findMaterialLoop (pre ++ e :: post) tag m =
      { m with diffuseColor := e.diffuseColor,
               specularColor := e.specularColor,
               shininess := e.shininess } := by
  induction pre with
  | nil => simp [findMaterialLoop, he]
  | cons x rest ih =>
    have hx : x.tag ≠ tag := hpre x (by simp)
    simp only [List.cons_append, findMaterialLoop, if_neg hx]
    exact ih fun y hy => hpre y (by simp [hy])

/-! ### Claim theorems -/

/-- C1: `FindMaterial` returns not-found on an empty catalog; on every
non-empty catalog it returns `true` even when no entry's tag matches, and on
such a miss the output material is unchanged; when a tag matches, the first
matching entry's `diffuseColor`, `specularColor` and `shininess` are copied
into the output. -/
theorem claim_C1_findMaterial :
    (∀ (tag : String) (m : ObjectMaterial), findMaterial [] tag m = (false, m))
    ∧ (∀ (ms : List ObjectMaterial) (tag : String) (m : ObjectMaterial),
        ms ≠ [] → (findMaterial ms tag m).1 = true)
    ∧ (∀ (ms : List ObjectMaterial) (tag : String) (m : ObjectMaterial),
        ms ≠ [] → (∀ e ∈ ms, e.tag ≠ tag) → findMaterial ms tag m = (true, m))
    ∧ (∀ (pre : List ObjectMaterial) (e : ObjectMaterial)
        (post : List ObjectMaterial) (tag : String) (m : ObjectMaterial),
        (∀ x ∈ pre, x.tag ≠ tag) → e.tag = tag →
        findMaterial (pre ++ e :: post) tag m =
          (true, { m with diffuseColor := e.diffuseColor,
                          specularColor := e.specularColor,
                          shininess := e.shininess })) := by
  refine ⟨fun tag m => rfl, ?_, ?_, ?_⟩
  · intro ms tag m hne
    simp [findMaterial, List.length_eq_zero.not.mpr hne]
  · intro ms tag m hne hmiss
    simp [findMaterial, List.length_eq_zero.not.mpr hne,
          findMaterialLoop_of_no_match hmiss]
  · intro pre e post tag m hpre he
    have hne : pre ++ e :: post ≠ [] := by simp
    simp [findMaterial, List.length_eq_zero.not.mpr hne,
          findMaterialLoop_first_match hpre he]

/-- Witness for C1 at concrete inputs: the empty catalog reports not-found;
a non-empty catalog with no matching tag reports found with the output
unchanged; a matching tag copies the first match's three fields. -/
theorem claim_C1_findMaterial_witness :
    findMaterial [] "glass" ⟨⟨0, 0, 0⟩, ⟨0, 0, 0⟩, 0, "out"⟩ =
      (false, ⟨⟨0, 0, 0⟩, ⟨0, 0, 0⟩, 0, "out"⟩)
    ∧ findMaterial [⟨⟨1, 2, 3⟩, ⟨4, 5, 6⟩, 7, "a"⟩] "miss"
        ⟨⟨0, 0, 0⟩, ⟨0, 0, 0⟩, 0, "out"⟩ =
      (true, ⟨⟨0, 0, 0⟩, ⟨0, 0, 0⟩, 0, "out"⟩)
    ∧ findMaterial
        [⟨⟨1, 2, 3⟩, ⟨4, 5, 6⟩, 7, "a"⟩, ⟨⟨8, 9, 10⟩, ⟨11, 12, 13⟩, 14, "b"⟩,
         ⟨⟨15, 16, 17⟩, ⟨18, 19, 20⟩, 21, "b"⟩] "b"
        ⟨⟨0, 0, 0⟩, ⟨0, 0, 0⟩, 0, "out"⟩ =
      (true, ⟨⟨8, 9, 10⟩, ⟨11, 12, 13⟩, 14, "out"⟩) :=
  ⟨claim_C1_findMaterial.1 "glass" _,
   claim_C1_findMaterial.2.2.1 _ "miss" _ (by simp)
     (by decide),
   claim_C1_findMaterial.2.2.2 [⟨⟨1, 2, 3⟩, ⟨4, 5, 6⟩, 7, "a"⟩]
     ⟨⟨8, 9, 10⟩, ⟨11, 12, 13⟩, 14, "b"⟩ [⟨⟨15, 16, 17⟩, ⟨18, 19, 20⟩, 21, "b"⟩]
     "b" ⟨⟨0, 0, 0⟩, ⟨0, 0, 0⟩, 0, "out"⟩
     (by decide) rfl⟩

/-- C2: a successful texture registration appends its entry at the end of the
registry (so the slot index assigned is the number of previously registered
entries: 0, 1, 2, ... in registration order), and `FindTextureSlot`
(resp. `FindTextureID`) of a tag returns the index (resp. handle) of the
first matching entry, so duplicate registrations of one tag resolve to the
earliest entry. -/
theorem claim_C2_slot_assignment :
    (∀ (gl : GLState) (regs : List TextureEntry) (img : Image) (tag : String),
       img.colorChannels = 3 ∨ img.colorChannels = 4 →
       (createGLTexture gl regs (some img) tag).2.2 =
          regs ++ [⟨gl.nextTextureID, tag⟩]
       ∧ (createMirroredTexture gl regs (some img) tag).2.2 =
          regs ++ [⟨gl.nextTextureID, tag⟩])
    ∧ (∀ (pre : List TextureEntry) (e : TextureEntry)
        (post : List TextureEntry) (tag : String),
        e.tag = tag → (∀ x ∈ pre, x.tag ≠ tag) →
        findTextureSlot (pre ++ e :: post) tag = (pre.length : Int)
        ∧ findTextureID (pre ++ e :: post) tag = e.ID) := by
  constructor
  · intro gl regs img tag h
    rcases h with h | h <;>
      simp [createGLTexture, createMirroredTexture, finishCreateTexture,
            glGenTexture, glBindTexture2D, h]
  · intro pre e post tag he hpre
    constructor
    · show findTextureSlotLoop (pre ++ e :: post) tag 0 = (pre.length : Int)
      rw [findTextureSlotLoop_first_match hpre he 0]
      ring
    · exact findTextureIDLoop_first_match hpre he

/-- Witness for C2 at concrete inputs: registering into a registry of one
entry appends at index 1 with the fresh handle; with a duplicated tag, slot
and handle lookups return the first (index-1) entry's values. -/
theorem claim_C2_slot_assignment_witness :
    (createGLTexture ⟨33984, fun _ => 0, 7, []⟩ [⟨1, "a"⟩]
        (some ⟨2, 2, 3⟩) "b").2.2 = [⟨1, "a"⟩, ⟨7, "b"⟩]
    ∧ findTextureSlot [⟨1, "a"⟩, ⟨2, "b"⟩, ⟨3, "b"⟩] "b" = 1
    ∧ findTextureID [⟨1, "a"⟩, ⟨2, "b"⟩, ⟨3, "b"⟩] "b" = 2 :=
  ⟨(claim_C2_slot_assignment.1 ⟨33984, fun _ => 0, 7, []⟩ [⟨1, "a"⟩]
      ⟨2, 2, 3⟩ "b" (Or.inl rfl)).1,
   (claim_C2_slot_assignment.2 [⟨1, "a"⟩] ⟨2, "b"⟩ [⟨3, "b"⟩] "b" rfl
      (by decide)).1,
   (claim_C2_slot_assignment.2 [⟨1, "a"⟩] ⟨2, "b"⟩ [⟨3, "b"⟩] "b" rfl
      (by decide)).2⟩

/-- C8: for a tag matching no registered entry, `FindTextureSlot` and
`FindTextureID` both return the sentinel -1 (and, being pure scans of the
registry, modify nothing). -/
theorem claim_C8_lookup_miss :
    ∀ (regs : List TextureEntry) (tag : String),
      (∀ e ∈ regs, e.tag ≠ tag) →
      findTextureSlot regs tag = -1 ∧ findTextureID regs tag = -1 := by
  intro regs tag h
  exact ⟨findTextureSlotLoop_of_no_match h 0, findTextureIDLoop_of_no_match h⟩

/-- Witness for C8: on a two-entry registry, the unregistered tag "c" gives
-1 from both lookups. -/
theorem claim_C8_lookup_miss_witness :
    findTextureSlot [⟨5, "a"⟩, ⟨6, "b"⟩] "c" = -1
    ∧ findTextureID [⟨5, "a"⟩, ⟨6, "b"⟩] "c" = -1 :=
  claim_C8_lookup_miss [⟨5, "a"⟩, ⟨6, "b"⟩] "c"
    (by decide)

/-- C3: registering an image whose channel count is neither 3 nor 4 returns
`false` and appends no entry: the registry is returned unchanged (so its
length and all existing entries are unchanged), for both `CreateGLTexture`
and `CreateMirroredTexture`. -/
theorem claim_C3_unsupported_channels :
    ∀ (gl : GLState) (regs : List TextureEntry) (img : Image) (tag : String),
      img.colorChannels ≠ 3 → img.colorChannels ≠ 4 →
      (createGLTexture gl regs (some img) tag).1 = false
      ∧ (createGLTexture gl regs (some img) tag).2.2 = regs
      ∧ (createMirroredTexture gl regs (some img) tag).1 = false
      ∧ (createMirroredTexture gl regs (some img) tag).2.2 = regs := by
  intro gl regs img tag h3 h4
  simp [createGLTexture, createMirroredTexture, h3, h4]

/-- Witness for C3: a 2-channel image is rejected and the one-entry registry
is unchanged. -/
theorem claim_C3_unsupported_channels_witness :
    (createGLTexture ⟨33984, fun _ => 0, 1, []⟩ [⟨9, "a"⟩]
        (some ⟨8, 8, 2⟩) "t").1 = false
    ∧ (createGLTexture ⟨33984, fun _ => 0, 1, []⟩ [⟨9, "a"⟩]
        (some ⟨8, 8, 2⟩) "t").2.2 = [⟨9, "a"⟩]
    ∧ (createMirroredTexture ⟨33984, fun _ => 0, 1, []⟩ [⟨9, "a"⟩]
        (some ⟨8, 8, 2⟩) "t").1 = false
    ∧ (createMirroredTexture ⟨33984, fun _ => 0, 1, []⟩ [⟨9, "a"⟩]
        (some ⟨8, 8, 2⟩) "t").2.2 = [⟨9, "a"⟩] :=
  claim_C3_unsupported_channels ⟨33984, fun _ => 0, 1, []⟩ [⟨9, "a"⟩]
    ⟨8, 8, 2⟩ "t" (by decide) (by decide)

/-- C9: texture registration has no capacity check against the 16-unit
ceiling: every successful `CreateGLTexture` call — whatever the current
registry length — returns `true`, appends its entry at index
`m_loadedTextures` (the end), and the length grows by one. -/
theorem claim_C9_no_capacity_check :
    ∀ (gl : GLState) (regs : List TextureEntry) (img : Image) (tag : String),
      img.colorChannels = 3 ∨ img.colorChannels = 4 →
      (createGLTexture gl regs (some img) tag).1 = true
      ∧ (createGLTexture gl regs (some img) tag).2.2 =
          regs ++ [⟨gl.nextTextureID, tag⟩]
      ∧ (createGLTexture gl regs (some img) tag).2.2.length =
          regs.length + 1 := by
  intro gl regs img tag h
  rcases h with h | h <;>
    simp [createGLTexture, finishCreateTexture, glGenTexture,
          glBindTexture2D, h]

/-- Witness for C9 at a registry already holding 16 entries (the
texture-unit ceiling): registration still succeeds and the length becomes
17. -/
theorem claim_C9_no_capacity_check_witness :
    (createGLTexture ⟨33984, fun _ => 0, 17, []⟩
        (List.replicate 16 ⟨1, "x"⟩) (some ⟨8, 8, 4⟩) "t").1 = true
    ∧ (createGLTexture ⟨33984, fun _ => 0, 17, []⟩
        (List.replicate 16 ⟨1, "x"⟩) (some ⟨8, 8, 4⟩) "t").2.2 =
        List.replicate 16 ⟨1, "x"⟩ ++ [⟨17, "t"⟩]
    ∧ (createGLTexture ⟨33984, fun _ => 0, 17, []⟩
        (List.replicate 16 ⟨1, "x"⟩) (some ⟨8, 8, 4⟩) "t").2.2.length =
        16 + 1 :=
  claim_C9_no_capacity_check ⟨33984, fun _ => 0, 17, []⟩
    (List.replicate 16 ⟨1, "x"⟩) ⟨8, 8, 4⟩ "t" (Or.inr rfl)

/-- C7 counterexample: the claim says the bound 2D texture is 0 after every
`CreateGLTexture` call, success or failure; but on the unsupported-channel
failure path (here a 2-channel image, from an initial state with binding 0
and next fresh handle 1) the freshly generated handle 1 is left bound. -/
theorem claim_C7_counterexample :
    (createGLTexture ⟨33984, fun _ => 0, 1, []⟩ [] (some ⟨8, 8, 2⟩)
        "t").2.1.bound2D 33984 = 1
    ∧ ((1 : Int) = 0 → False) := by
  constructor
  · decide
  · decide

/-- C7 amended: after a SUCCESSFUL `CreateGLTexture`/`CreateMirroredTexture`
call the active unit's 2D binding is 0 (unbound); on a decode failure the
GL state is completely untouched; on an unsupported-channel failure the
freshly generated handle (`nextTextureID`, never 0) remains bound. -/
theorem claim_C7_binding_amended :
    ∀ (gl : GLState) (regs : List TextureEntry) (img : Image) (tag : String),
      (createGLTexture gl regs none tag = (false, gl, regs)
        ∧ createMirroredTexture gl regs none tag = (false, gl, regs))
      ∧ ((img.colorChannels = 3 ∨ img.colorChannels = 4) →
          (createGLTexture gl regs (some img) tag).2.1.bound2D gl.activeUnit = 0
          ∧ (createMirroredTexture gl regs (some img) tag).2.1.bound2D
              gl.activeUnit = 0)
      ∧ (img.colorChannels ≠ 3 → img.colorChannels ≠ 4 →
          (createGLTexture gl regs (some img) tag).2.1.bound2D gl.activeUnit =
            gl.nextTextureID
          ∧ (createMirroredTexture gl regs (some img) tag).2.1.bound2D
              gl.activeUnit = gl.nextTextureID) := by
  intro gl regs img tag
  refine ⟨⟨rfl, rfl⟩, ?_, ?_⟩
  · intro h
    rcases h with h | h <;>
      simp [createGLTexture, createMirroredTexture, finishCreateTexture,
            glGenTexture, glBindTexture2D, h]
  · intro h3 h4
    simp [createGLTexture, createMirroredTexture, glGenTexture,
          glBindTexture2D, h3, h4]

/-- Witness for C7's amended statement at concrete inputs: decode failure
leaves the state untouched; a 3-channel success leaves binding 0; a
2-channel failure leaves the fresh handle 5 bound. -/
theorem claim_C7_binding_amended_witness :
    createGLTexture ⟨33984, fun _ => 7, 5, []⟩ [] none "t" =
      (false, ⟨33984, fun _ => 7, 5, []⟩, [])
    ∧ (createGLTexture ⟨33984, fun _ => 7, 5, []⟩ [] (some ⟨8, 8, 3⟩)
        "t").2.1.bound2D 33984 = 0
    ∧ (createGLTexture ⟨33984, fun _ => 7, 5, []⟩ [] (some ⟨8, 8, 2⟩)
        "t").2.1.bound2D 33984 = 5 :=
  ⟨(claim_C7_binding_amended ⟨33984, fun _ => 7, 5, []⟩ [] ⟨8, 8, 3⟩ "t").1.1,
   ((claim_C7_binding_amended ⟨33984, fun _ => 7, 5, []⟩ [] ⟨8, 8, 3⟩ "t").2.1
      (Or.inl rfl)).1,
   ((claim_C7_binding_amended ⟨33984, fun _ => 7, 5, []⟩ [] ⟨8, 8, 2⟩ "t").2.2
      (by decide) (by decide)).1⟩

/-! ### Lemmas on `destroyGLTextures` -/

lemma destroyGLTextures_get :
    ∀ (regs : List TextureEntry) (gl : GLState) (i : Nat),
      (destroyGLTextures gl regs).2.get? i =
        (regs.get? i).map (fun e => { e with ID := gl.nextTextureID + i })
  | [], gl, i => by simp [destroyGLTextures]
  | e :: rest, gl, 0 => by
    simp [destroyGLTextures, glGenTexture]
  | e :: rest, gl, i + 1 => by
    have ih := destroyGLTextures_get rest
      { gl with nextTextureID := gl.nextTextureID + 1,
                allocated := gl.allocated ++ [gl.nextTextureID] } i
    simp only [destroyGLTextures, glGenTexture, List.get?] at ih ⊢
    rw [ih]
    rcases rest.get? i with _ | e'
    · simp
    · simp
      ring

lemma destroyGLTextures_allocated :
    ∀ (regs : List TextureEntry) (gl : GLState) (h : Int),
      h ∈ gl.allocated → h ∈ (destroyGLTextures gl regs).1.allocated
  | [], gl, h, hmem => hmem
  | e :: rest, gl, h, hmem => by
    simp only [destroyGLTextures, glGenTexture]
    exact destroyGLTextures_allocated rest _ h (by simp [hmem])

lemma destroyGLTextures_length :
    ∀ (regs : List TextureEntry) (gl : GLState),
      (destroyGLTextures gl regs).2.length = regs.length
  | [], _ => rfl
  | e :: rest, gl => by
    simp [destroyGLTextures, destroyGLTextures_length rest]

/-- C6: `DestroyGLTextures` deletes no texture handle: the registry length
is unchanged, every previously allocated handle is still allocated
afterwards (nothing is freed), each entry keeps its tag but has its handle
replaced in place by a freshly generated one (`nextTextureID + i` for the
entry at index `i`), and whenever the old handles were previously generated
(below `nextTextureID`) the new handle differs from the old. -/
theorem claim_C6_destroy_regenerates :
    ∀ (gl : GLState) (regs : List TextureEntry),
      (destroyGLTextures gl regs).2.length = regs.length
      ∧ (∀ h ∈ gl.allocated, h ∈ (destroyGLTextures gl regs).1.allocated)
      ∧ (∀ i : Nat, (destroyGLTextures gl regs).2.get? i =
          (regs.get? i).map (fun e => { e with ID := gl.nextTextureID + i }))
      ∧ ((∀ e ∈ regs, e.ID < gl.nextTextureID) →
          ∀ (i : Nat) (e e' : TextureEntry), regs.get? i = some e →
            (destroyGLTextures gl regs).2.get? i = some e' →
            e'.ID ≠ e.ID ∧ e'.tag = e.tag) := by
  intro gl regs
  refine ⟨destroyGLTextures_length regs gl,
    fun h hm => destroyGLTextures_allocated regs gl h hm,
    destroyGLTextures_get regs gl, ?_⟩
  intro hlt i e e' hget hget'
  rw [destroyGLTextures_get regs gl i, hget, Option.map_some'] at hget'
  injection hget' with hget'
  have he : e.ID < gl.nextTextureID := hlt e (List.get?_mem hget)
  subst hget'
  refine ⟨?_, rfl⟩
  show gl.nextTextureID + (i : Int) ≠ e.ID
  have hnn : (0 : Int) ≤ (i : Int) := Int.ofNat_nonneg i
  omega

/-- Witness for C6 at a concrete state (next handle 10, handles 1 and 2
allocated and registered): both old handles stay allocated, the two entries
get the fresh handles 10 and 11 in place, and each differs from its old
handle. -/
theorem claim_C6_destroy_regenerates_witness :
    (destroyGLTextures ⟨33984, fun _ => 0, 10, [1, 2]⟩
        [⟨1, "a"⟩, ⟨2, "b"⟩]).2.length = 2
    ∧ (1 : Int) ∈ (destroyGLTextures ⟨33984, fun _ => 0, 10, [1, 2]⟩
        [⟨1, "a"⟩, ⟨2, "b"⟩]).1.allocated
    ∧ (destroyGLTextures ⟨33984, fun _ => 0, 10, [1, 2]⟩
        [⟨1, "a"⟩, ⟨2, "b"⟩]).2.get? 1 = some ⟨10 + 1, "b"⟩
    ∧ ((10 + 1 : Int) = 2 → False) :=
  ⟨(claim_C6_destroy_regenerates ⟨33984, fun _ => 0, 10, [1, 2]⟩
      [⟨1, "a"⟩, ⟨2, "b"⟩]).1,
   (claim_C6_destroy_regenerates ⟨33984, fun _ => 0, 10, [1, 2]⟩
      [⟨1, "a"⟩, ⟨2, "b"⟩]).2.1 1 (by decide),
   (claim_C6_destroy_regenerates ⟨33984, fun _ => 0, 10, [1, 2]⟩
      [⟨1, "a"⟩, ⟨2, "b"⟩]).2.2.1 1,
   fun hc =>
     ((claim_C6_destroy_regenerates ⟨33984, fun _ => 0, 10, [1, 2]⟩
        [⟨1, "a"⟩, ⟨2, "b"⟩]).2.2.2 (by decide) 1 ⟨2, "b"⟩ ⟨10 + 1, "b"⟩
        rfl
        ((claim_C6_destroy_regenerates ⟨33984, fun _ => 0, 10, [1, 2]⟩
          [⟨1, "a"⟩, ⟨2, "b"⟩]).2.2.1 1)).1 hc⟩

/-- C5: for every tag `tagA` (in particular every registered one),
`SetTwoTextures(tagA, tagA, mix)` and the single-texture path
`SetShaderTexture(tagA)` assign the same slot value to the first sampler
uniform `"objectTexture"`: both resolve it as `FindTextureSlot(tagA)`, the
first-match scan over the registry. -/
theorem claim_C5_same_first_sampler :
    ∀ (regs : List TextureEntry) (tagA : String) (mixFactor : ℝ)
      (gl : GLState),
      (setTwoTextures true regs tagA tagA mixFactor gl).1.find?
          (fun p => p.1 = "objectTexture")
        = (setShaderTexture true regs tagA).find?
            (fun p => p.1 = "objectTexture")
      ∧ (setTwoTextures true regs tagA tagA mixFactor gl).1.find?
          (fun p => p.1 = "objectTexture")
        = some ("objectTexture", .sampler (findTextureSlot regs tagA)) := by
  intro regs tagA mixFactor gl
  exact ⟨rfl, rfl⟩

/-- C10: with a null `m_pShaderManager`, the five setters that guard on the
pointer (`SetTransformations`, `SetShaderColor`, `SetShaderTexture`,
`SetTextureUVScale`, `SetTwoTextures`) write no shader uniforms (and
`SetTwoTextures` issues no GL calls either); `SetShaderMaterial` alone has
no null check, and dereferences the null pointer (result `none`) whenever
the material catalog is non-empty — the tag lookup then always reports
success. -/
theorem claim_C10_null_shader_manager :
    ∀ (scaleXYZ : Vec3) (xr yr zr : ℝ) (positionXYZ : Vec3) (r g b a : ℝ)
      (regs : List TextureEntry) (ttag : String) (u v : ℝ)
      (tag1 tag2 : String) (mixFactor : ℝ) (gl : GLState)
      (ms : List ObjectMaterial) (mtag : String) (uninit : ObjectMaterial),
      setTransformations false scaleXYZ xr yr zr positionXYZ = []
      ∧ setShaderColor false r g b a = []
      ∧ setShaderTexture false regs ttag = []
      ∧ setTextureUVScale false u v = []
      ∧ (setTwoTextures false regs tag1 tag2 mixFactor gl).1 = []
      ∧ (setTwoTextures false regs tag1 tag2 mixFactor gl).2 = gl
      ∧ (ms ≠ [] → setShaderMaterial false ms mtag uninit = none) := by
  intro scaleXYZ xr yr zr positionXYZ r g b a regs ttag u v tag1 tag2
    mixFactor gl ms mtag uninit
  refine ⟨rfl, rfl, rfl, rfl, rfl, rfl, ?_⟩
  intro hne
  have hlen : ms.length ≠ 0 := List.length_eq_zero.not.mpr hne
  simp [setShaderMaterial, findMaterial, hlen, Nat.pos_of_ne_zero hlen]

/-- Witness for C10 at concrete inputs; in particular `SetShaderMaterial`
with the null shader manager and a one-entry catalog dereferences null. -/
theorem claim_C10_null_shader_manager_witness :
    setShaderColor false 1 0 0 1 = []
    ∧ setShaderTexture false [⟨1, "a"⟩] "a" = []
    ∧ setTextureUVScale false 2 2 = []
    ∧ (setTwoTextures false [⟨1, "a"⟩] "a" "a" 0
        ⟨33984, fun _ => 0, 1, []⟩).1 = []
    ∧ setShaderMaterial false [⟨⟨1, 2, 3⟩, ⟨4, 5, 6⟩, 7, "a"⟩] "a"
        ⟨⟨0, 0, 0⟩, ⟨0, 0, 0⟩, 0, "out"⟩ = none := by
  have h := claim_C10_null_shader_manager ⟨1, 1, 1⟩ 0 0 0 ⟨0, 0, 0⟩ 1 0 0 1
    [⟨1, "a"⟩] "a" 2 2 "a" "a" 0 ⟨33984, fun _ => 0, 1, []⟩
    [⟨⟨1, 2, 3⟩, ⟨4, 5, 6⟩, 7, "a"⟩] "a" ⟨⟨0, 0, 0⟩, ⟨0, 0, 0⟩, 0, "out"⟩
  exact ⟨h.2.1, h.2.2.1, h.2.2.2.1, h.2.2.2.2.1, h.2.2.2.2.2.2 (by simp)⟩

/-! ### Lemmas on the glm rotation matrices -/

lemma rotateMat_xAxis (t : ℝ) : rotateMat t ⟨1, 0, 0⟩ = rotXStd t := by
  ext i j
  fin_cases i <;> fin_cases j <;>
    simp [rotateMat, rotXStd]

lemma rotateMat_yAxis (t : ℝ) : rotateMat t ⟨0, 1, 0⟩ = rotYStd t := by
  ext i j
  fin_cases i <;> fin_cases j <;>
    simp [rotateMat, rotYStd]

lemma rotateMat_zAxis (t : ℝ) : rotateMat t ⟨0, 0, 1⟩ = rotZStd t := by
  ext i j
  fin_cases i <;> fin_cases j <;>
    simp [rotateMat, rotZStd]

/-- The model matrix decomposes as translation · Rz · Ry · Rx · scale with
the standard axis rotation matrices. -/
lemma setTransformationsMatrix_eq_std (s : Vec3) (xr yr zr : ℝ) (t : Vec3) :
    setTransformationsMatrix s xr yr zr t =
      translateMat t * rotZStd (radians zr) * rotYStd (radians yr) *
        rotXStd (radians xr) * scaleMat s := by
  unfold setTransformationsMatrix
  rw [rotateMat_xAxis, rotateMat_yAxis, rotateMat_zAxis]

/-- C4: `SetTransformations` composes the model matrix as
`T · Rz · Ry · Rx · S` — translation outermost, then Z-then-Y-then-X
rotation, then scale innermost — and for S=(2,1,1), rotation (0,90,0)
degrees, translation (3,0,0), transforming the point (1,0,0) (homogeneous
(1,0,0,1)) lands at (3,0,-2). -/
theorem claim_C4_transform_composition :
    (∀ (s : Vec3) (xr yr zr : ℝ) (t : Vec3),
       setTransformationsMatrix s xr yr zr t =
         translateMat t * rotZStd (radians zr) * rotYStd (radians yr) *
           rotXStd (radians xr) * scaleMat s)
    ∧ (setTransformationsMatrix ⟨2, 1, 1⟩ 0 90 0 ⟨3, 0, 0⟩).mulVec
        ![1, 0, 0, 1] = ![3, 0, -2, 1] := by
  refine ⟨setTransformationsMatrix_eq_std, ?_⟩
  rw [setTransformationsMatrix_eq_std]
  have h0 : radians 0 = 0 := by simp [radians]
  have h90 : radians 90 = Real.pi / 2 := by
    unfold radians
    ring
  rw [h0, h90]
  have hS : (scaleMat ⟨2, 1, 1⟩).mulVec ![1, 0, 0, 1] = ![2, 0, 0, 1] := by
    funext i
    fin_cases i <;>
      simp [scaleMat, Matrix.mulVec, Matrix.dotProduct, Fin.sum_univ_four]
  have hX : (rotXStd 0).mulVec ![2, 0, 0, 1] = ![2, 0, 0, 1] := by
    funext i
    fin_cases i <;>
      simp [rotXStd, Matrix.mulVec, Matrix.dotProduct, Fin.sum_univ_four]
  have hY : (rotYStd (Real.pi / 2)).mulVec ![2, 0, 0, 1] = ![0, 0, -2, 1] := by
    funext i
    fin_cases i <;>
      simp [rotYStd, Matrix.mulVec, Matrix.dotProduct, Fin.sum_univ_four,
            Real.cos_pi_div_two, Real.sin_pi_div_two]
  have hZ : (rotZStd 0).mulVec ![0, 0, -2, 1] = ![0, 0, -2, 1] := by
    funext i
    fin_cases i <;>
      simp [rotZStd, Matrix.mulVec, Matrix.dotProduct, Fin.sum_univ_four]
  have hT : (translateMat ⟨3, 0, 0⟩).mulVec ![0, 0, -2, 1] = ![3, 0, -2, 1] := by
    funext i
    fin_cases i <;>
      simp [translateMat, Matrix.mulVec, Matrix.dotProduct, Fin.sum_univ_four]
  rw [← Matrix.mulVec_mulVec, ← Matrix.mulVec_mulVec, ← Matrix.mulVec_mulVec,
      ← Matrix.mulVec_mulVec, hS, hX, hY, hZ, hT]

end SceneMgr
